import Mathlib

/-!
Shallow embedding of `src/app.py` (a Flask gate-pass application).

The embedded core is the `/student` POST handler (`def student`, lines
89-149): a two-phase OTP-gated submission protocol.  The Flask `session`
object is modelled by the four keys the handler reads and writes
(`otp_phase`, `otp`, `otp_expiry`, `pending`), each an `Option` since
`session.pop` removes a key.  Wall-clock timestamps (`datetime.utcnow()`)
are modelled as natural numbers counting seconds, so
`timedelta(minutes=5)` is `5 * 60`.  The SQLAlchemy table
`gate_pass_requests` is modelled as a list of rows in insertion order,
with the autoincrement primary key modelled as the row position.
`random.randint(100000, 999999)` is modelled as a function of an
arbitrary natural-number seed covering exactly that inclusive range.
Python runtime errors that the handler could raise on malformed session
state (a `TypeError` from comparing a datetime with `None`, a `KeyError`
from `session["pending"]`) are made explicit as the `pyError` outcome.
-/

namespace GateCheck

/-- The pending gate-pass payload stored under `session["pending"]`
(lines 132-136): free-form strings `reason`, `out_date`, `out_time`. -/
structure Payload where
  reason : String
  out_date : String
  out_time : String
deriving DecidableEq

/-- The four session keys used by the `/student` handler.  A key is
`none` when absent from the Flask session (never set, or popped). -/
structure Session where
  otp_phase : Option Bool := none
  otp : Option Nat := none
  otp_expiry : Option Nat := none
  pending : Option Payload := none
deriving DecidableEq

/-- A row of the `gate_pass_requests` table (class `GatePassRequest`,
lines 72-84).  `id` is the autoincrement primary key, `status` defaults
to `"Pending"`, `created_at` defaults to the insertion time. -/
structure GatePassRequest where
  id : Nat
  student_id : Nat
  student_name : String
  reason : String
  out_date : String
  out_time : String
  status : String
  created_at : Nat
deriving DecidableEq

/-- The fields of the `users` row that the `/student` handler reads
(class `User`, lines 61-69): `id`, `name`, `parents_phone`. -/
structure User where
  id : Nat
  name : String
  parents_phone : String
deriving DecidableEq

/-- The mutable state touched by the handler: the per-subject session
slot and the durable request store (the `gate_pass_requests` table,
rows in insertion order). -/
structure ServerState where
  session : Session
  store : List GatePassRequest
deriving DecidableEq

/-- Observable outcome of one POST to `/student`, identified by the
`flash` message and redirect each branch performs.  `pyError` marks the
branches where the Python code would raise (`TypeError` comparing a
datetime with `None` at line 98, `KeyError` at line 107); such a request
aborts without touching the session or the store. -/
inductive Outcome where
  | otpSent
  | expired
  | invalidCode
  | submitted (req : GatePassRequest)
  | pyError
deriving DecidableEq

/-- Python truthiness of `session.get("otp_phase")`: an absent key reads
as `None`, which is falsy; the code only ever stores `True` there. -/
def truthy : Option Bool → Bool
  | some b => b
  | none => false

/-- Python `str(session.get("otp"))` (line 103): decimal rendering of
the stored integer, or the string `"None"` when the key is absent. -/
def strOfOtpSlot : Option Nat → String
  | some o => Nat.repr o
  | none => "None"

/-- Python `request.form.get("otp") != str(...)` negated (line 103): a
missing form field reads as `None`, which equals no string. -/
def pyFormEq : Option String → String → Bool
  | some s, t => s = t
  | none, _ => false

/-- Python `random.randint(lo, hi)`: an arbitrary draw from the
inclusive range `[lo, hi]`, modelled as a function of a seed `r`. -/
def randint (lo hi r : Nat) : Nat := lo + r % (hi - lo + 1)

/-- Python `timedelta(minutes=5)` (line 131), in seconds. -/
def fiveMinutes : Nat := 5 * 60

/-- The `GatePassRequest` row the success branch constructs (lines
108-114): payload fields from `session["pending"]`, identity fields
from the authenticated user, `status` from the column default
`"Pending"` (line 81), `created_at` from the column default
`datetime.utcnow` (line 82), `id` from the autoincrement key. -/
def mkRequest (user : User) (data : Payload) (id now : Nat) : GatePassRequest :=
  { id := id
    student_id := user.id
    student_name := user.name
    reason := data.reason
    out_date := data.out_date
    out_time := data.out_time
    status := "Pending"
    created_at := now }

/-- The OTP VERIFY branch of the handler (lines 97-124), entered when
`session.get("otp_phase")` is truthy.  Steps in source order:
if `datetime.utcnow() > session.get("otp_expiry")` then flash expired
and pop only `otp_phase`; else if the form OTP differs from
`str(session.get("otp"))` then flash invalid and change nothing; else
build a `GatePassRequest` from `session["pending"]` and the
authenticated user, commit it, and pop all four session keys. -/
def resolveChallenge (user : User) (submitted_otp : Option String) (now : Nat)
    (st : ServerState) : Outcome × ServerState :=
  match st.session.otp_expiry with
  | none => (Outcome.pyError, st)
  | some expiry =>
    if expiry < now then
      (Outcome.expired, { st with session := { st.session with otp_phase := none } })
    else if ¬ pyFormEq submitted_otp (strOfOtpSlot st.session.otp) then
      (Outcome.invalidCode, st)
    else
      match st.session.pending with
      | none => (Outcome.pyError, st)
      | some data =>
        let req := mkRequest user data st.store.length now
        (Outcome.submitted req,
          { session := { otp_phase := none, otp := none, otp_expiry := none, pending := none }
            store := st.store ++ [req] })

/-- The SEND OTP branch of the handler (lines 127-140), entered on POST
when no OTP phase is active: draw a code with
`random.randint(100000, 999999)`, set all four session keys
(`otp`, `otp_phase = True`, `otp_expiry = now + 5 minutes`, `pending`),
overwriting any prior values. -/
def startChallenge (payload : Payload) (now r : Nat) (st : ServerState) :
    Outcome × ServerState :=
  let otp := randint 100000 999999 r
  (Outcome.otpSent,
    { st with session :=
      { otp_phase := some true
        otp := some otp
        otp_expiry := some (now + fiveMinutes)
        pending := some payload } })

/-- An SMS provider client, as the single call the code makes
(`twilio_client.messages.create`, lines 50-54): it either succeeds or
raises an exception carrying a message. -/
def Notifier := String → String → Except String Unit

/-- How a `send_sms` call ends: provider unconfigured (early `return`),
message handed to the provider, or a provider exception caught and
printed by the `except` clause. -/
inductive SmsOutcome where
  | noProvider
  | sent
  | errorLogged (e : String)
deriving DecidableEq

/-- The function `send_sms(phone, message)` (lines 46-56): a silent
no-op when `twilio_client` is `None`; otherwise calls the provider
inside `try/except`, so every provider exception is caught and logged.
It is total: it never propagates a failure to its caller. -/
def send_sms (client : Option Notifier) (phone message : String) : SmsOutcome :=
  match client with
  | none => SmsOutcome.noProvider
  | some create =>
    match create phone message with
    | Except.ok _ => SmsOutcome.sent
    | Except.error e => SmsOutcome.errorLogged e

/-- The SEND OTP branch together with its `send_sms` call (line 138):
the session write (lines 129-136) happens before the notification is
attempted, and `send_sms` returns no value the branch uses. -/
def startChallengeWithSms (client : Option Notifier) (user : User) (payload : Payload)
    (now r : Nat) (st : ServerState) : (Outcome × ServerState) × SmsOutcome :=
  let res := startChallenge payload now r st
  let otp := randint 100000 999999 r
  (res, send_sms client user.parents_phone ("OTP for gate pass is " ++ Nat.repr otp))

/-- The form fields a POST to `/student` may carry.  The OTP VERIFY
branch reads `form.get("otp")`; the SEND OTP branch reads `reason`,
`out_date`, `out_time` (validated for presence by the caller per the
spec, so modelled as present). -/
structure Form where
  otp : Option String := none
  reason : String := ""
  out_date : String := ""
  out_time : String := ""
deriving DecidableEq

/-- The POST dispatch of the `/student` handler: resolve when
`session.get("otp_phase")` is truthy (line 97), otherwise start a new
challenge (line 127). -/
def studentPost (user : User) (form : Form) (now r : Nat) (st : ServerState) :
    Outcome × ServerState :=
  if truthy st.session.otp_phase then
    resolveChallenge user form.otp now st
  else
    startChallenge { reason := form.reason, out_date := form.out_date,
                     out_time := form.out_time } now r st

/-- The GET-path query `session.get("otp_phase", False)` (line 148):
whether the subject currently has an active challenge.  Pure, no side
effect. -/
def hasActiveChallenge (st : ServerState) : Bool := truthy st.session.otp_phase

/-- States of one subject's session and the store reachable from a
fresh session through the handler: any sequence of POSTs to `/student`
(line 89) and of `session.clear()` from `/logout` (line 173), which
leaves the database untouched. -/
inductive Reachable : ServerState → Prop where
  | init : Reachable { session := {}, store := [] }
  | post (user : User) (form : Form) (now r : Nat) {st : ServerState} :
      Reachable st → Reachable (studentPost user form now r st).2
  | logout {st : ServerState} :
      Reachable st → Reachable { st with session := {} }

/-- A concrete student used to instantiate theorems. -/
def user0 : User := { id := 7, name := "Asha", parents_phone := "5550001" }

/-- A concrete pending payload used to instantiate theorems. -/
def payload0 : Payload :=
  { reason := "Doctor visit", out_date := "2026-10-12", out_time := "10:00" }

/-- A concrete active-challenge state: code 482913, expiry at time 1000,
empty request store. -/
def activeState0 : ServerState :=
  { session := { otp_phase := some true, otp := some 482913, otp_expiry := some 1000,
                 pending := some payload0 }
    store := [] }

/-- The state left behind by a successful resolution of `activeState0`
at time 60: all four session keys popped, one persisted row. -/
def clearedState0 : ServerState :=
  { session := { otp_phase := none, otp := none, otp_expiry := none, pending := none }
    store := [mkRequest user0 payload0 0 60] }

/-- A concrete start-challenge form used to instantiate theorems. -/
def startForm0 : Form :=
  { otp := none, reason := "Doctor visit", out_date := "2026-10-12", out_time := "10:00" }

/-- A concrete SMS provider that always raises. -/
def failNotifier : Notifier := fun _ _ => Except.error ("twilio down")

/-! ### Helper lemmas on the branches of `resolveChallenge` -/

theorem pyFormEq_eq_true_iff (sub : Option String) (t : String) :
    pyFormEq sub t = true ↔ sub = some t := by
  cases sub <;> simp [pyFormEq]

theorem pyFormEq_eq_false (sub : Option String) (t : String) (h : sub ≠ some t) :
    pyFormEq sub t = false := by
  cases hb : pyFormEq sub t with
  | false => rfl
  | true => exact absurd ((pyFormEq_eq_true_iff sub t).mp hb) h

theorem append_ne_self (a s : String) (ha : a.length ≠ 0) : a ++ s ≠ s := by
  intro h
  have hl := congrArg String.length h
  rw [String.length_append] at hl
  omega

theorem resolve_expired_eq (user : User) (sub : Option String) (ph : Option Bool)
    (o : Option Nat) (e now : Nat) (p : Option Payload) (store : List GatePassRequest)
    (h : e < now) :
    resolveChallenge user sub now
      { session := { otp_phase := ph, otp := o, otp_expiry := some e, pending := p }
        store := store } =
    (Outcome.expired,
      { session := { otp_phase := none, otp := o, otp_expiry := some e, pending := p }
        store := store }) := by
  simp [resolveChallenge, h]

theorem resolve_invalid_eq (user : User) (sub : Option String) (ph : Option Bool)
    (o : Option Nat) (e now : Nat) (p : Option Payload) (store : List GatePassRequest)
    (hnow : ¬ e < now) (hne : pyFormEq sub (strOfOtpSlot o) = false) :
    resolveChallenge user sub now
      { session := { otp_phase := ph, otp := o, otp_expiry := some e, pending := p }
        store := store } =
    (Outcome.invalidCode,
      { session := { otp_phase := ph, otp := o, otp_expiry := some e, pending := p }
        store := store }) := by
  simp [resolveChallenge, hnow, hne]

theorem resolve_success_eq (user : User) (ph : Option Bool) (o e now : Nat) (p : Payload)
    (store : List GatePassRequest) (hnow : ¬ e < now) :
    resolveChallenge user (some (Nat.repr o)) now
      { session := { otp_phase := ph, otp := some o, otp_expiry := some e, pending := some p }
        store := store } =
    (Outcome.submitted (mkRequest user p store.length now),
      { session := { otp_phase := none, otp := none, otp_expiry := none, pending := none }
        store := store ++ [mkRequest user p store.length now] }) := by
  simp [resolveChallenge, hnow, strOfOtpSlot, pyFormEq]

/-! ### Claim theorems -/

/-- C1: for every active challenge, resolving with the correct code
while `now` is not past expiry persists exactly one `GatePassRequest`
(the store grows by exactly that one row) whose `reason`, `out_date`,
`out_time` come from the stored payload and whose `student_id`,
`student_name` come from the authenticated subject, with status
`"Pending"`, and it clears the challenge: the subject has no active
challenge afterwards. -/
theorem C1_success_persists_one_and_clears (user : User) (o e now : Nat) (p : Payload)
    (store : List GatePassRequest) (hnow : now ≤ e) :
    resolveChallenge user (some (Nat.repr o)) now
      { session := { otp_phase := some true, otp := some o, otp_expiry := some e,
                     pending := some p }
        store := store } =
    (Outcome.submitted (mkRequest user p store.length now),
      { session := { otp_phase := none, otp := none, otp_expiry := none, pending := none }
        store := store ++ [mkRequest user p store.length now] })
    ∧ hasActiveChallenge (resolveChallenge user (some (Nat.repr o)) now
        { session := { otp_phase := some true, otp := some o, otp_expiry := some e,
                       pending := some p }
          store := store }).2 = false := by
  have h := resolve_success_eq user (some true) o e now p store (Nat.not_lt.mpr hnow)
  exact ⟨h, by rw [h]; rfl⟩

/-- Witness for C1 at student `user0`, code 482913, expiry 1000,
submission at time 60 with the correct code, empty store. -/
theorem C1_witness :
    resolveChallenge user0 (some (Nat.repr 482913)) 60 activeState0 =
    (Outcome.submitted (mkRequest user0 payload0 0 60),
      { session := { otp_phase := none, otp := none, otp_expiry := none, pending := none }
        store := [mkRequest user0 payload0 0 60] })
    ∧ hasActiveChallenge
        (resolveChallenge user0 (some (Nat.repr 482913)) 60 activeState0).2 = false :=
  C1_success_persists_one_and_clears user0 482913 1000 60 payload0 [] (by decide)

/-- C2: for every active challenge, resolving with `now` strictly past
expiry yields the expired outcome and deactivates the challenge, for
every submitted code — in particular for the correct one — because the
expiry check at line 98 precedes the code comparison at line 103: the
result does not depend on `sub` at all. -/
theorem C2_expired_regardless_of_code (user : User) (sub : Option String)
    (o : Option Nat) (e now : Nat) (p : Option Payload) (store : List GatePassRequest)
    (hexp : e < now) :
    resolveChallenge user sub now
      { session := { otp_phase := some true, otp := o, otp_expiry := some e, pending := p }
        store := store } =
    (Outcome.expired,
      { session := { otp_phase := none, otp := o, otp_expiry := some e, pending := p }
        store := store })
    ∧ hasActiveChallenge (resolveChallenge user sub now
        { session := { otp_phase := some true, otp := o, otp_expiry := some e, pending := p }
          store := store }).2 = false := by
  have h := resolve_expired_eq user sub (some true) o e now p store hexp
  exact ⟨h, by rw [h]; rfl⟩

/-- Witness for C2: the correct code 482913 submitted at time 1001,
one past the expiry 1000, still fails as expired. -/
theorem C2_witness :
    resolveChallenge user0 (some (Nat.repr 482913)) 1001 activeState0 =
    (Outcome.expired,
      { session := { otp_phase := none, otp := some 482913, otp_expiry := some 1000,
                     pending := some payload0 }
        store := [] })
    ∧ hasActiveChallenge
        (resolveChallenge user0 (some (Nat.repr 482913)) 1001 activeState0).2 = false :=
  C2_expired_regardless_of_code user0 (some (Nat.repr 482913)) (some 482913) 1000 1001
    (some payload0) [] (by decide)

/-- C3: for every active challenge, resolving before expiry with an
incorrect code yields the invalid-code outcome and leaves the whole
state (session with same code, same expiry, same payload, and the
store) unchanged, and the correct code still succeeds at any later
time within the window. -/
theorem C3_invalid_code_leaves_state_unchanged (user : User) (sub : Option String)
    (o e now : Nat) (p : Payload) (store : List GatePassRequest)
    (hnow : now ≤ e) (hne : sub ≠ some (Nat.repr o)) :
    resolveChallenge user sub now
      { session := { otp_phase := some true, otp := some o, otp_expiry := some e,
                     pending := some p }
        store := store } =
    (Outcome.invalidCode,
      { session := { otp_phase := some true, otp := some o, otp_expiry := some e,
                     pending := some p }
        store := store })
    ∧ ∀ now2 : Nat, now2 ≤ e →
      (resolveChallenge user (some (Nat.repr o)) now2
        { session := { otp_phase := some true, otp := some o, otp_expiry := some e,
                       pending := some p }
          store := store }).1 = Outcome.submitted (mkRequest user p store.length now2) := by
  constructor
  · exact resolve_invalid_eq user sub (some true) (some o) e now (some p) store
      (Nat.not_lt.mpr hnow) (pyFormEq_eq_false sub (Nat.repr o) hne)
  · intro now2 hnow2
    rw [resolve_success_eq user (some true) o e now2 p store (Nat.not_lt.mpr hnow2)]

/-- Witness for C3: the wrong code 000000 at time 60 leaves the
challenge intact, and the correct code still succeeds at time 120. -/
theorem C3_witness :
    resolveChallenge user0 (some ("000000")) 60 activeState0 =
      (Outcome.invalidCode, activeState0)
    ∧ ∀ now2 : Nat, now2 ≤ 1000 →
      (resolveChallenge user0 (some (Nat.repr 482913)) now2 activeState0).1 =
        Outcome.submitted (mkRequest user0 payload0 0 now2) :=
  C3_invalid_code_leaves_state_unchanged user0 (some ("000000")) 482913 1000 60 payload0 []
    (by decide) (by decide)

/-- C4: a challenge resolves successfully at most once.  After a
successful resolution the subject has no active challenge; a forced
second call of the resolve branch on the resulting state aborts (the
popped `otp_expiry` key makes line 98 raise) without touching state or
store; and a genuine second POST is routed to the SEND OTP branch,
which persists nothing — so no second `GatePassRequest` arises from the
same challenge. -/
theorem C4_success_at_most_once (user : User) (o e now : Nat) (p : Payload)
    (store : List GatePassRequest) (req : GatePassRequest) (st' : ServerState)
    (hnow : now ≤ e)
    (hres : resolveChallenge user (some (Nat.repr o)) now
      { session := { otp_phase := some true, otp := some o, otp_expiry := some e,
                     pending := some p }
        store := store } = (Outcome.submitted req, st')) :
    hasActiveChallenge st' = false
    ∧ (∀ sub now2, resolveChallenge user sub now2 st' = (Outcome.pyError, st'))
    ∧ (∀ form now2 r2, (studentPost user form now2 r2 st').1 = Outcome.otpSent
        ∧ (studentPost user form now2 r2 st').2.store = st'.store) := by
  have h := resolve_success_eq user (some true) o e now p store (Nat.not_lt.mpr hnow)
  rw [hres] at h
  injection h with hfst hsnd
  subst hsnd
  exact ⟨rfl, fun sub now2 => rfl, fun form now2 r2 => ⟨rfl, rfl⟩⟩

/-- Witness for C4: after the concrete success of `activeState0` at
time 60, a forced resolve at time 120 aborts and a fresh POST at time
120 only starts a new challenge, leaving the store at one row. -/
theorem C4_witness :
    hasActiveChallenge clearedState0 = false
    ∧ resolveChallenge user0 (some (Nat.repr 482913)) 120 clearedState0 =
        (Outcome.pyError, clearedState0)
    ∧ (studentPost user0 startForm0 120 9 clearedState0).1 = Outcome.otpSent
    ∧ (studentPost user0 startForm0 120 9 clearedState0).2.store = clearedState0.store := by
  have h := C4_success_at_most_once user0 482913 1000 60 payload0 []
    (mkRequest user0 payload0 0 60) clearedState0 (by decide)
    (resolve_success_eq user0 (some true) 482913 1000 60 payload0 [] (by decide))
  exact ⟨h.1, h.2.1 (some (Nat.repr 482913)) 120, (h.2.2 startForm0 120 9).1,
    (h.2.2 startForm0 120 9).2⟩

/-- C5: every `StartChallenge` draws a code in the inclusive range
100000..999999, stores expiry equal to the creation time plus exactly
5 minutes, and leaves the subject with exactly one active challenge —
the single session slot — carrying the payload passed in. -/
theorem C5_start_creates_active_challenge (payload : Payload) (now r : Nat)
    (st : ServerState) :
    100000 ≤ randint 100000 999999 r
    ∧ randint 100000 999999 r ≤ 999999
    ∧ startChallenge payload now r st =
      (Outcome.otpSent,
        { session := { otp_phase := some true, otp := some (randint 100000 999999 r),
                       otp_expiry := some (now + 5 * 60), pending := some payload }
          store := st.store })
    ∧ hasActiveChallenge (startChallenge payload now r st).2 = true := by
  refine ⟨?_, ?_, rfl, rfl⟩ <;> (unfold randint; omega)

/-- C6: notification dispatch never affects challenge creation: the
SEND OTP branch yields the same outcome and server state for every
provider configuration; `send_sms` is a silent no-op when no provider
is configured; a provider exception is caught and logged, never
propagated; and the challenge is active afterwards even under a
provider that always fails. -/
theorem C6_sms_never_affects_start (c1 c2 : Option Notifier) (user : User)
    (payload : Payload) (now r : Nat) (st : ServerState) (phone message err : String)
    (failing : Notifier) (hfail : ∀ ph m, failing ph m = Except.error err) :
    (startChallengeWithSms c1 user payload now r st).1 =
      (startChallengeWithSms c2 user payload now r st).1
    ∧ send_sms none phone message = SmsOutcome.noProvider
    ∧ send_sms (some failing) phone message = SmsOutcome.errorLogged err
    ∧ hasActiveChallenge
        (startChallengeWithSms (some failing) user payload now r st).1.2 = true := by
  refine ⟨rfl, rfl, ?_, rfl⟩
  simp [send_sms, hfail phone message]

/-- Witness for C6 with a provider that always raises: the start
outcome and state match the unconfigured-provider run, the failure is
logged, and the challenge is active. -/
theorem C6_witness :
    (startChallengeWithSms none user0 payload0 0 5 { session := {}, store := [] }).1 =
      (startChallengeWithSms (some failNotifier) user0 payload0 0 5
        { session := {}, store := [] }).1
    ∧ send_sms none ("5550001") ("hello") = SmsOutcome.noProvider
    ∧ send_sms (some failNotifier) ("5550001") ("hello") =
        SmsOutcome.errorLogged ("twilio down")
    ∧ hasActiveChallenge
        (startChallengeWithSms (some failNotifier) user0 payload0 0 5
          { session := {}, store := [] }).1.2 = true :=
  C6_sms_never_affects_start none (some failNotifier) user0 payload0 0 5
    { session := {}, store := [] } ("5550001") ("hello") ("twilio down") failNotifier
    (fun _ _ => rfl)

/-- C7: before expiry, resolution succeeds exactly when the submitted
form value equals, as a string, the decimal rendering of the stored
code; the same number written with a leading zero, or the same digits
with leading whitespace, fails the string comparison. -/
theorem C7_string_exact_comparison (user : User) (sub : Option String) (o e now : Nat)
    (p : Payload) (store : List GatePassRequest) (hnow : now ≤ e) :
    ((∃ req, (resolveChallenge user sub now
      { session := { otp_phase := some true, otp := some o, otp_expiry := some e,
                     pending := some p }
        store := store }).1 = Outcome.submitted req) ↔ sub = some (Nat.repr o))
    ∧ (resolveChallenge user (some ("0" ++ Nat.repr o)) now
      { session := { otp_phase := some true, otp := some o, otp_expiry := some e,
                     pending := some p }
        store := store }).1 = Outcome.invalidCode
    ∧ (resolveChallenge user (some (" " ++ Nat.repr o)) now
      { session := { otp_phase := some true, otp := some o, otp_expiry := some e,
                     pending := some p }
        store := store }).1 = Outcome.invalidCode := by
  have hle := Nat.not_lt.mpr hnow
  refine ⟨⟨?_, ?_⟩, ?_, ?_⟩
  · rintro ⟨req, hreq⟩
    by_cases hc : sub = some (Nat.repr o)
    · exact hc
    · rw [resolve_invalid_eq user sub (some true) (some o) e now (some p) store hle
        (pyFormEq_eq_false sub (Nat.repr o) hc)] at hreq
      exact absurd hreq (by simp)
  · rintro rfl
    exact ⟨mkRequest user p store.length now,
      by rw [resolve_success_eq user (some true) o e now p store hle]⟩
  · rw [resolve_invalid_eq user (some ("0" ++ Nat.repr o)) (some true) (some o) e now
      (some p) store hle (pyFormEq_eq_false _ _ (by
        intro hs
        exact append_ne_self ("0") (Nat.repr o) (by decide) (Option.some.inj hs)))]
  · rw [resolve_invalid_eq user (some (" " ++ Nat.repr o)) (some true) (some o) e now
      (some p) store hle (pyFormEq_eq_false _ _ (by
        intro hs
        exact append_ne_self (" ") (Nat.repr o) (by decide) (Option.some.inj hs)))]

/-- Witness for C7: against stored code 482913, the submissions
0482913 and (space)482913 fail while 482913 itself succeeds. -/
theorem C7_witness :
    (resolveChallenge user0 (some ("0" ++ Nat.repr 482913)) 60 activeState0).1 =
      Outcome.invalidCode
    ∧ (resolveChallenge user0 (some (" " ++ Nat.repr 482913)) 60 activeState0).1 =
      Outcome.invalidCode
    ∧ (resolveChallenge user0 (some (Nat.repr 482913)) 60 activeState0).1 =
      Outcome.submitted (mkRequest user0 payload0 0 60) := by
  have h := C7_string_exact_comparison user0 (some (Nat.repr 482913)) 482913 1000 60
    payload0 [] (by decide)
  exact ⟨h.2.1, h.2.2,
    congrArg Prod.fst (resolve_success_eq user0 (some true) 482913 1000 60 payload0 []
      (by decide))⟩

/-- C8: in every reachable state, the subject's challenge slot is the
single session slot and, whenever a challenge is active, that slot
holds exactly one complete challenge — flag, code, expiry and payload
all present.  Every handler operation (start, each resolve outcome, the
pure active-challenge query, logout) preserves this, and no history of
expired or failed challenges accumulates beyond this one slot. -/
theorem C8_single_complete_challenge (st : ServerState) (h : Reachable st)
    (ha : hasActiveChallenge st = true) :
    st.session.otp_phase = some true
    ∧ (∃ o, st.session.otp = some o)
    ∧ (∃ e, st.session.otp_expiry = some e)
    ∧ (∃ p, st.session.pending = some p) := by
  induction h with
  | init => simp [hasActiveChallenge, truthy] at ha
  | @post user form now r st hst ih =>
    by_cases hph : truthy st.session.otp_phase = true
    · obtain ⟨h1, ⟨o, h2⟩, ⟨e, h3⟩, ⟨p, h4⟩⟩ := ih hph
      rcases st with ⟨⟨ph, oo, oe, pd⟩, store⟩
      simp only [Session.otp_phase, Session.otp, Session.otp_expiry, Session.pending,
        ServerState.session] at h1 h2 h3 h4
      subst h1; subst h2; subst h3; subst h4
      simp only [studentPost, hph, if_true] at ha ⊢
      by_cases hlt : e < now
      · rw [resolve_expired_eq user form.otp (some true) (some o) e now (some p) store hlt]
          at ha
        simp [hasActiveChallenge, truthy] at ha
      · by_cases hpf : pyFormEq form.otp (strOfOtpSlot (some o)) = true
        · have hsub : form.otp = some (Nat.repr o) :=
            (pyFormEq_eq_true_iff form.otp (strOfOtpSlot (some o))).mp hpf
          rw [hsub, resolve_success_eq user (some true) o e now p store hlt] at ha
          simp [hasActiveChallenge, truthy] at ha
        · have hpf' : pyFormEq form.otp (strOfOtpSlot (some o)) = false :=
            Bool.not_eq_true _ ▸ (Bool.eq_false_iff.mpr (fun hb => hpf hb))
          rw [resolve_invalid_eq user form.otp (some true) (some o) e now (some p) store
            hlt hpf']
          exact ⟨rfl, ⟨o, rfl⟩, ⟨e, rfl⟩, ⟨p, rfl⟩⟩
    · have hph' : truthy st.session.otp_phase = false := by
        cases hb : truthy st.session.otp_phase with
        | false => rfl
        | true => exact absurd hb hph
      simp [studentPost, hph', startChallenge]
  | @logout st hst ih => simp [hasActiveChallenge, truthy] at ha

/-- Witness for C8 at the state reached by one start POST from the
initial state: the flag of the single slot is set. -/
theorem C8_witness :
    (studentPost user0 startForm0 0 5 { session := {}, store := [] }).2.session.otp_phase
      = some true :=
  (C8_single_complete_challenge _ (Reachable.post user0 startForm0 0 5 Reachable.init)
    (by rfl)).1

/-- C9: when the resolve branch detects expiry it pops only the
`otp_phase` key — the stored code, expiry timestamp and pending payload
all remain in the session after the expired outcome — while a
successful resolution removes all four entries. -/
theorem C9_expiry_pops_only_phase (user : User) (sub : Option String) (o e : Nat)
    (p : Payload) (store : List GatePassRequest) (now1 now2 : Nat)
    (h1 : e < now1) (h2 : now2 ≤ e) :
    (resolveChallenge user sub now1
      { session := { otp_phase := some true, otp := some o, otp_expiry := some e,
                     pending := some p }
        store := store }).2.session =
      { otp_phase := none, otp := some o, otp_expiry := some e, pending := some p }
    ∧ (resolveChallenge user (some (Nat.repr o)) now2
      { session := { otp_phase := some true, otp := some o, otp_expiry := some e,
                     pending := some p }
        store := store }).2.session =
      { otp_phase := none, otp := none, otp_expiry := none, pending := none } := by
  constructor
  · rw [resolve_expired_eq user sub (some true) (some o) e now1 (some p) store h1]
  · rw [resolve_success_eq user (some true) o e now2 p store (Nat.not_lt.mpr h2)]

/-- Witness for C9: expiry at time 1001 keeps code 482913, expiry 1000
and the payload in the session; success at time 60 removes all four
entries. -/
theorem C9_witness :
    (resolveChallenge user0 (some (Nat.repr 482913)) 1001 activeState0).2.session =
      { otp_phase := none, otp := some 482913, otp_expiry := some 1000,
        pending := some payload0 }
    ∧ (resolveChallenge user0 (some (Nat.repr 482913)) 60 activeState0).2.session =
      { otp_phase := none, otp := none, otp_expiry := none, pending := none } :=
  C9_expiry_pops_only_phase user0 (some (Nat.repr 482913)) 482913 1000 payload0 []
    1001 60 (by decide) (by decide)

/-- C10: on every failing resolve attempt — expired, invalid code, or
an aborting runtime error — the request store is unchanged; the store
grows, by exactly the created row, only when the outcome is a
successful submission. -/
theorem C10_store_changes_only_on_success (user : User) (sub : Option String) (now : Nat)
    (st : ServerState) :
    ((resolveChallenge user sub now st).1 = Outcome.expired →
      (resolveChallenge user sub now st).2.store = st.store)
    ∧ ((resolveChallenge user sub now st).1 = Outcome.invalidCode →
      (resolveChallenge user sub now st).2.store = st.store)
    ∧ ((resolveChallenge user sub now st).1 = Outcome.pyError →
      (resolveChallenge user sub now st).2.store = st.store)
    ∧ ∀ req, (resolveChallenge user sub now st).1 = Outcome.submitted req →
      (resolveChallenge user sub now st).2.store = st.store ++ [req] := by
  rcases st with ⟨⟨ph, oo, oe, pd⟩, store⟩
  cases oe with
  | none => refine ⟨?_, ?_, ?_, ?_⟩ <;> simp [resolveChallenge]
  | some e =>
    by_cases hlt : e < now
    · refine ⟨?_, ?_, ?_, ?_⟩ <;> simp [resolveChallenge, hlt]
    · by_cases hpf : pyFormEq sub (strOfOtpSlot oo) = true
      · cases pd with
        | none => refine ⟨?_, ?_, ?_, ?_⟩ <;> simp [resolveChallenge, hlt, hpf]
        | some p => refine ⟨?_, ?_, ?_, ?_⟩ <;> simp [resolveChallenge, hlt, hpf]
      · have hpf' : pyFormEq sub (strOfOtpSlot oo) = false := by
          cases hb : pyFormEq sub (strOfOtpSlot oo) with
          | false => rfl
          | true => exact absurd hb hpf
        refine ⟨?_, ?_, ?_, ?_⟩ <;> simp [resolveChallenge, hlt, hpf']

/-- Witness for C10: the wrong code at time 60 and the right code at
time 1001 both leave the one-row-free store empty. -/
theorem C10_witness :
    (resolveChallenge user0 (some ("000000")) 60 activeState0).2.store =
      activeState0.store
    ∧ (resolveChallenge user0 (some (Nat.repr 482913)) 1001 activeState0).2.store =
      activeState0.store := by
  have h1 := C10_store_changes_only_on_success user0 (some ("000000")) 60 activeState0
  have h2 := C10_store_changes_only_on_success user0 (some (Nat.repr 482913)) 1001
    activeState0
  exact ⟨h1.2.1 (by decide), h2.1 (by decide)⟩

end GateCheck
